import Mathlib

/-!
Verification of `deeppavlov/models/classifiers/sklearn_classifiers.py`.

The module defines three adapter classes (`LogReg`, `Svm`, `RandomForest`)
that are textually identical except for the underlying sklearn estimator
they default-construct.  We therefore embed them as a single `Adapter`
structure carrying a `Variant` tag.

Modelling choices:
- Feature samples (`x[i]`) are either a `csr_matrix`, an `np.ndarray`, or
  some other Python object; both matrix kinds are modelled as lists of
  integer rows, and `scipy.sparse.vstack` / `np.vstack` as row
  concatenation.
- The sklearn estimator is external code.  Its observable state is
  modelled symbolically: a freshly default-constructed instance of a
  variant, or the result of calling its in-place `.fit(X, y)`.  The
  external `predict` is an explicit function argument of `Adapter.call`.
- Python object identity matters for the handle-replacement claims, so a
  `Handle` pairs an allocation id with the estimator state; a `World`
  carries the filesystem and the next fresh id.
- `joblib.dump`/`joblib.load` are modelled as faithful serialization of
  the dumped object (the pickled object is `self.model`, which may be
  `None`).
- Paths are lists of components; `Path.resolve` is the identity (paths are
  modelled as already absolute), `Path.parent` drops the last component.
- Raised exceptions are modelled with `Except`; `save` returns the world
  alongside the outcome because the `raise` happens before any write.
- Log calls are modelled as a returned list of `LogEvent`s.
-/

namespace SklearnClassifiers

/-- The three registered adapter variants of the module. -/
inductive Variant
  | logReg
  | svm
  | randomForest
deriving DecidableEq, Repr

/-- The exception classes the module can raise. -/
inductive PyErr
  | valueError
  | notImplementedError
  | configError
  | attributeError
deriving DecidableEq, Repr

/-- A scipy `csr_matrix`, modelled by its rows. -/
structure CsrMatrix where
  rows : List (List Int)
deriving DecidableEq, Repr

/-- A numpy `ndarray`, modelled by its rows. -/
structure NdArray where
  rows : List (List Int)
deriving DecidableEq, Repr

/-- One element of the feature batch `x`: a sparse matrix, a dense array,
or any other Python value (tagged opaquely). -/
inductive Sample
  | sparse (m : CsrMatrix)
  | dense (m : NdArray)
  | other (tag : Nat)
deriving DecidableEq, Repr

/-- The rows a sample contributes to a vertical stack; `other` samples
contribute nothing (no claim depends on stacking a heterogeneous batch,
which the spec rules out). -/
def Sample.rows : Sample → List (List Int)
  | .sparse m => m.rows
  | .dense m => m.rows
  | .other _ => []

/-- The combined training matrix: `scipy.sparse.vstack` yields a sparse
matrix, `np.vstack` a dense one. -/
inductive Matrix
  | sparse (rows : List (List Int))
  | dense (rows : List (List Int))
deriving DecidableEq, Repr

/-- Observable state of the external sklearn estimator: a freshly
default-constructed instance of a variant (default hyperparameters), or
the state after its in-place `.fit(X, y)`. -/
inductive ModelState
  | defaultOf (v : Variant)
  | fitted (v : Variant) (x : Matrix) (y : List Int)
deriving DecidableEq, Repr

/-- The algorithm (hyperparameter set) an estimator state belongs to;
the in-place `.fit` keeps it and replaces only the learned parameters. -/
def ModelState.algo : ModelState → Variant
  | .defaultOf v => v
  | .fitted v _ _ => v

/-- A Python object reference to an estimator: an allocation id (object
identity) together with the estimator state. -/
structure Handle where
  id : Nat
  state : ModelState
deriving DecidableEq, Repr

/-- A filesystem path, as a list of components (modelled as already
absolute, so `Path.resolve` is the identity). -/
def Path : Type := List String
deriving DecidableEq, Repr

/-- pathlib `Path.resolve()`: the identity on our already-absolute paths. -/
def Path.resolve (p : Path) : Path := p

/-- pathlib `Path.parent`: drop the last component. -/
def Path.parent (p : Path) : Path := List.dropLast p

/-- What `joblib.dump(self.model, fname)` serializes: the model attribute,
which is `None` or an estimator; ids are not preserved by pickling, so
only the state is stored. -/
def Artifact : Type := Option ModelState
deriving DecidableEq, Repr

/-- The filesystem: existing directories and files with their artifacts. -/
structure FS where
  dirs : List Path
  files : List (Path × Artifact)
deriving DecidableEq, Repr

/-- Read the artifact at a path, `none` when no such file exists. -/
def FS.read (fs : FS) (p : Path) : Option Artifact :=
  (fs.files.find? fun f => f.1 = p).map (fun f => f.2)

/-- Write an artifact, overwriting any existing file at the path. -/
def FS.write (fs : FS) (p : Path) (art : Artifact) : FS :=
  { fs with files := (p, art) :: fs.files.filter fun f => ¬ f.1 = p }

/-- Ambient mutable state: the filesystem and the allocator of fresh
Python object ids. -/
structure World where
  fs : FS
  nextId : Nat
deriving DecidableEq, Repr

/-- Log messages the module emits. -/
inductive LogEvent
  | infoSavingTo (p : Path)
  | infoInitFromSaved (v : Variant)
  | warnInitFromScratch (v : Variant)
  | warnNoLoadPath (v : Variant)
deriving DecidableEq, Repr

/-- The adapter instance: variant tag plus the state the three classes
share.  Modelled from the spec: the external `Estimator` base collaborator
(not under the sources) stores the externally supplied `save_path` and
`load_path` on the instance, uninterpreted otherwise. -/
structure Adapter where
  variant : Variant
  savePath : Option Path
  loadPath : Option Path
  model : Option Handle
deriving DecidableEq, Repr

/-- The `fit` method, shared verbatim by the three classes.  Faithful to
the source order: the empty check and the type dispatch on `x[0]` raise
before `self.model.fit` runs; `weights` is accepted and never used; the
sklearn `.fit` mutates the referenced estimator in place (same object id,
learned state replaced) and `fit` returns `self`. -/
def Adapter.fit (a : Adapter) (x : List Sample) (y : List Int)
    (weights : Option (List Int)) : Except PyErr Adapter :=
  match x with
  | [] => .error .valueError
  | x0 :: _ =>
    match x0 with
    | .other _ => .error .notImplementedError
    | _ =>
      let xTrainFeatures : Matrix :=
        match x0 with
        | .sparse _ => .sparse (x.flatMap Sample.rows)
        | _ => .dense (x.flatMap Sample.rows)
      match a.model with
      | none => .error .attributeError
      | some h =>
          .ok { a with model := some ⟨h.id, .fitted h.state.algo xTrainFeatures y⟩ }

/-- The `__call__` method: delegates to the external estimator, whose
`predict` is passed in explicitly as a function of the estimator state. -/
def Adapter.call (predict : ModelState → List Sample → List Int)
    (a : Adapter) (q : List Sample) : Except PyErr (List Int) :=
  match a.model with
  | none => .error .attributeError
  | some h => .ok (predict h.state q)

/-- The `save` method.  `if not fname: fname = self.save_path` with an
unset `save_path` leaves `fname = None`, so `fname.parent` raises
`AttributeError`; an explicit `fname` is resolved first.  A missing parent
directory raises `ConfigError` before any write; otherwise `joblib.dump`
writes the model attribute to the path. -/
def Adapter.save (a : Adapter) (fname : Option Path) (w : World) :
    Except PyErr Unit × World × List LogEvent :=
  let f : Option Path :=
    match fname with
    | none => a.savePath
    | some p => some (Path.resolve p)
  match f with
  | none => (.error .attributeError, w, [])
  | some p =>
    if Path.parent p ∈ w.fs.dirs then
      (.ok (), { w with fs := w.fs.write p (a.model.map Handle.state) },
        [.infoSavingTo p])
    else
      (.error .configError, w, [])

/-- The `load` method.  Total (never raises): a missing `load_path` or a
missing file yields a warning and a freshly constructed default estimator
(a new object, hence a fresh id); an existing file is deserialized into
`self.model` (pickling creates a new object). -/
def Adapter.load (a : Adapter) (w : World) : Adapter × World × List LogEvent :=
  match a.loadPath with
  | some p =>
    match w.fs.read p with
    | some art =>
      match art with
      | some s =>
          ({ a with model := some ⟨w.nextId, s⟩ },
            { w with nextId := w.nextId + 1 }, [.infoInitFromSaved a.variant])
      | none => ({ a with model := none }, w, [.infoInitFromSaved a.variant])
    | none =>
        ({ a with model := some ⟨w.nextId, .defaultOf a.variant⟩ },
          { w with nextId := w.nextId + 1 }, [.warnInitFromScratch a.variant])
  | none =>
      ({ a with model := some ⟨w.nextId, .defaultOf a.variant⟩ },
        { w with nextId := w.nextId + 1 }, [.warnNoLoadPath a.variant])

/-- The `__init__` method of each class: store the supplied paths (via the
base collaborator), set `self.model = None`, then call `self.load()`. -/
def Adapter.init (v : Variant) (savePath loadPath : Option Path) (w : World) :
    Adapter × World × List LogEvent :=
  Adapter.load ⟨v, savePath, loadPath, none⟩ w

/-- Claim C1: for every adapter variant, calling fit with an empty feature
batch raises the input-validation error (ValueError), for every label
batch and weight argument. -/
theorem fit_empty_raises_valueError (a : Adapter) (y : List Int)
    (weights : Option (List Int)) :
    a.fit [] y weights = .error .valueError := rfl

/-- Claim C2: for every adapter variant, calling fit with a non-empty
feature batch whose first element is neither a csr_matrix nor an ndarray
raises NotImplementedError, regardless of the remaining elements. -/
theorem fit_other_first_raises_notImplemented (a : Adapter) (tag : Nat)
    (rest : List Sample) (y : List Int) (weights : Option (List Int)) :
    a.fit (Sample.other tag :: rest) y weights = .error .notImplementedError :=
  rfl

/-- Claim C3: fit inspects only the type of the first sample: a sparse
first sample makes the batch vertically stack into one sparse matrix, a
dense one into one dense matrix; the underlying model is fitted on the
combined matrix against the full label batch, and fit returns the adapter
itself, its paths and variant unchanged and with no filesystem effect
(fit does not touch the world at all). -/
theorem fit_dispatches_on_first_sample (a : Adapter) (h : Handle)
    (x0 : Sample) (rest : List Sample) (y : List Int)
    (weights : Option (List Int)) (hm : a.model = some h) :
    ((∃ m0, x0 = Sample.sparse m0) →
      a.fit (x0 :: rest) y weights =
        .ok { a with model := some ⟨h.id, .fitted h.state.algo
          (.sparse ((x0 :: rest).flatMap Sample.rows)) y⟩ }) ∧
    ((∃ m0, x0 = Sample.dense m0) →
      a.fit (x0 :: rest) y weights =
        .ok { a with model := some ⟨h.id, .fitted h.state.algo
          (.dense ((x0 :: rest).flatMap Sample.rows)) y⟩ }) := by
  constructor
  · rintro ⟨m0, rfl⟩
    simp [Adapter.fit, hm]
  · rintro ⟨m0, rfl⟩
    simp [Adapter.fit, hm]

/-- Witness for C3 at a concrete adapter and batch. -/
theorem fit_dispatches_on_first_sample_witness :
    (⟨Variant.logReg, none, none, some ⟨0, .defaultOf .logReg⟩⟩ : Adapter).fit
        [Sample.sparse ⟨[[1, 2]]⟩] [1] none =
      .ok ⟨Variant.logReg, none, none,
        some ⟨0, .fitted .logReg (.sparse [[1, 2]]) [1]⟩⟩ :=
  (fit_dispatches_on_first_sample
      ⟨Variant.logReg, none, none, some ⟨0, .defaultOf .logReg⟩⟩
      ⟨0, .defaultOf .logReg⟩ (Sample.sparse ⟨[[1, 2]]⟩) [] [1] none rfl).1
    ⟨⟨[[1, 2]]⟩, rfl⟩

/-- Claim C4: save to a target whose parent directory does not exist
raises ConfigError, writes nothing and logs nothing — the returned world
is the input world unchanged (and save never touches the adapter).  Both
the explicit-fname case and the configured save_path case are covered. -/
theorem save_missing_parent_raises_configError (a : Adapter) (w : World) :
    (∀ p : Path, Path.parent (Path.resolve p) ∉ w.fs.dirs →
      a.save (some p) w = (.error .configError, w, [])) ∧
    (∀ q : Path, a.savePath = some q → Path.parent q ∉ w.fs.dirs →
      a.save none w = (.error .configError, w, [])) := by
  constructor
  · intro p hp
    simp [Adapter.save, hp]
  · intro q hq hp
    simp [Adapter.save, hq, hp]

/-- Witness for C4 on an empty filesystem. -/
theorem save_missing_parent_raises_configError_witness :
    (⟨Variant.svm, none, none, none⟩ : Adapter).save (some ["d", "m.pkl"])
        ⟨⟨[], []⟩, 0⟩ = (.error .configError, ⟨⟨[], []⟩, 0⟩, []) :=
  (save_missing_parent_raises_configError _ _).1 ["d", "m.pkl"] (by decide)

/-- Claim C5: load never raises (its type is total, with no error
component): an unset load_path warns and installs a freshly constructed
default instance; a set load_path with no file there warns and installs a
freshly constructed default instance; a set load_path whose file exists
deserializes the stored artifact into the model handle. -/
theorem load_cases (a : Adapter) (w : World) :
    (a.loadPath = none →
      a.load w = ({ a with model := some ⟨w.nextId, .defaultOf a.variant⟩ },
        { w with nextId := w.nextId + 1 }, [.warnNoLoadPath a.variant])) ∧
    (∀ p, a.loadPath = some p → w.fs.read p = none →
      a.load w = ({ a with model := some ⟨w.nextId, .defaultOf a.variant⟩ },
        { w with nextId := w.nextId + 1 }, [.warnInitFromScratch a.variant])) ∧
    (∀ p s, a.loadPath = some p → w.fs.read p = some (some s) →
      a.load w = ({ a with model := some ⟨w.nextId, s⟩ },
        { w with nextId := w.nextId + 1 }, [.infoInitFromSaved a.variant])) := by
  refine ⟨?_, ?_, ?_⟩
  · intro hl
    simp [Adapter.load, hl]
  · intro p hl hr
    simp [Adapter.load, hl, hr]
  · intro p s hl hr
    simp [Adapter.load, hl, hr]

/-- Witness for C5 in the unset-load_path case. -/
theorem load_cases_witness :
    (⟨Variant.randomForest, none, none, none⟩ : Adapter).load ⟨⟨[], []⟩, 5⟩ =
      (⟨Variant.randomForest, none, none,
          some ⟨5, .defaultOf .randomForest⟩⟩,
        ⟨⟨[], []⟩, 6⟩, [.warnNoLoadPath .randomForest]) :=
  (load_cases ⟨Variant.randomForest, none, none, none⟩ ⟨⟨[], []⟩, 5⟩).1 rfl

/-- Claim C6: for every variant, constructing with no load_path yields a
model handle holding a freshly default-constructed instance of the
underlying algorithm for that variant (fresh object id, default state). -/
theorem init_without_loadPath_default_model (v : Variant) (sp : Option Path)
    (w : World) :
    ((Adapter.init v sp none w).1).model = some ⟨w.nextId, .defaultOf v⟩ := rfl

/-- Claim C7: save followed by constructing a new adapter whose load_path
points at the written artifact reproduces the predictions of the original
adapter, for every external predict function and every query batch. -/
theorem save_then_load_roundtrip
    (predictFun : ModelState → List Sample → List Int) (a : Adapter) (w : World)
    (p : Path) (hd : Path.parent (Path.resolve p) ∈ w.fs.dirs)
    (q : List Sample) (sp2 : Option Path) :
    ((Adapter.init a.variant sp2 (some (Path.resolve p))
        (a.save (some p) w).2.1).1).call predictFun q = a.call predictFun q := by
  cases hm : a.model with
  | none =>
      simp [Adapter.save, hd, Adapter.init, Adapter.load, Adapter.call,
        FS.read, FS.write, hm]
  | some h =>
      simp [Adapter.save, hd, Adapter.init, Adapter.load, Adapter.call,
        FS.read, FS.write, hm]

/-- Witness for C7 at a concrete model, path and filesystem. -/
theorem save_then_load_roundtrip_witness :
    ((Adapter.init Variant.logReg none (some (Path.resolve ["d", "m.pkl"]))
        ((⟨Variant.logReg, none, none,
            some ⟨0, .defaultOf .logReg⟩⟩ : Adapter).save
          (some ["d", "m.pkl"]) ⟨⟨[["d"]], []⟩, 1⟩).2.1).1).call
        (fun _ _ => [7]) []
      = (⟨Variant.logReg, none, none,
          some ⟨0, .defaultOf .logReg⟩⟩ : Adapter).call (fun _ _ => [7]) [] :=
  save_then_load_roundtrip (fun _ _ => [7])
    ⟨Variant.logReg, none, none, some ⟨0, .defaultOf .logReg⟩⟩
    ⟨⟨[["d"]], []⟩, 1⟩ ["d", "m.pkl"] (by decide) [] none

/-- Claim C8: the result of fit does not depend on the weights argument at
all — fit never forwards it. -/
theorem fit_independent_of_weights (a : Adapter) (x : List Sample)
    (y : List Int) (w1 w2 : Option (List Int)) :
    a.fit x y w1 = a.fit x y w2 := rfl

/-- Counterexample to C9 as stated: after a successful fit the adapter
still holds the same model instance (same object id 0, so fit did not
bind a new instance) and that instance now has different internal state
(so the existing handle was mutated in place), contradicting replaced
wholesale and never partially mutated. -/
theorem fit_handle_not_replaced_counterexample :
    (⟨Variant.logReg, none, none, some ⟨0, .defaultOf .logReg⟩⟩ : Adapter).fit
        [Sample.dense ⟨[[1, 2]]⟩] [1] none =
      .ok ⟨Variant.logReg, none, none,
        some ⟨0, .fitted .logReg (.dense [[1, 2]]) [1]⟩⟩ ∧
    (⟨0, ModelState.fitted .logReg (.dense [[1, 2]]) [1]⟩ : Handle).id =
      (⟨0, ModelState.defaultOf .logReg⟩ : Handle).id ∧
    (⟨0, ModelState.fitted .logReg (.dense [[1, 2]]) [1]⟩ : Handle) ≠
      ⟨0, ModelState.defaultOf .logReg⟩ := by
  refine ⟨rfl, rfl, ?_⟩
  decide

/-- Claim C9 as amended: load always binds the adapter to a fresh model
instance (its id is the allocator next id) and never mutates an existing
handle, while fit keeps the very same handle instance and updates its
internal state in place through the underlying fit, changing nothing else
on the adapter. -/
theorem fit_mutates_in_place_load_replaces (a : Adapter) (x : List Sample)
    (y : List Int) (weights : Option (List Int)) (w : World) :
    (∀ a2, a.fit x y weights = .ok a2 →
      a2.variant = a.variant ∧ a2.savePath = a.savePath ∧
      a2.loadPath = a.loadPath ∧
      ∃ h h2, a.model = some h ∧ a2.model = some h2 ∧ h2.id = h.id) ∧
    (∀ h2, ((a.load w).1).model = some h2 → h2.id = w.nextId) := by
  constructor
  · intro a2 hfit
    match x, hfit with
    | x0 :: rest, hfit =>
      cases x0 <;> cases hm : a.model <;>
        simp [Adapter.fit, hm] at hfit <;>
        simp [← hfit, hm]
  · intro h2 hl
    cases hlp : a.loadPath with
    | none =>
        simp [Adapter.load, hlp] at hl
        simp [← hl]
    | some p =>
        cases hr : w.fs.read p with
        | none =>
            simp [Adapter.load, hlp, hr] at hl
            simp [← hl]
        | some art =>
            cases art with
            | none => simp [Adapter.load, hlp, hr] at hl
            | some s =>
                simp [Adapter.load, hlp, hr] at hl
                simp [← hl]

/-- Witness for the amended C9: both conjuncts applied at concrete
adapters, a fit call and a load call. -/
theorem fit_mutates_in_place_load_replaces_witness :
    ((⟨Variant.svm, none, none,
        some ⟨3, .fitted .svm (.sparse [[2]]) [0]⟩⟩ : Adapter).variant =
        (⟨Variant.svm, none, none,
          some ⟨3, .defaultOf .svm⟩⟩ : Adapter).variant ∧
      (⟨Variant.svm, none, none,
        some ⟨3, .fitted .svm (.sparse [[2]]) [0]⟩⟩ : Adapter).savePath =
        (⟨Variant.svm, none, none,
          some ⟨3, .defaultOf .svm⟩⟩ : Adapter).savePath ∧
      (⟨Variant.svm, none, none,
        some ⟨3, .fitted .svm (.sparse [[2]]) [0]⟩⟩ : Adapter).loadPath =
        (⟨Variant.svm, none, none,
          some ⟨3, .defaultOf .svm⟩⟩ : Adapter).loadPath ∧
      ∃ h h2, (⟨Variant.svm, none, none,
          some ⟨3, .defaultOf .svm⟩⟩ : Adapter).model = some h ∧
        (⟨Variant.svm, none, none,
          some ⟨3, .fitted .svm (.sparse [[2]]) [0]⟩⟩ : Adapter).model =
            some h2 ∧
        h2.id = h.id) ∧
    (⟨9, ModelState.defaultOf .svm⟩ : Handle).id = 9 :=
  ⟨(fit_mutates_in_place_load_replaces
      ⟨Variant.svm, none, none, some ⟨3, .defaultOf .svm⟩⟩
      [Sample.sparse ⟨[[2]]⟩] [0] none ⟨⟨[], []⟩, 9⟩).1
      ⟨Variant.svm, none, none,
        some ⟨3, .fitted .svm (.sparse [[2]]) [0]⟩⟩ rfl,
    (fit_mutates_in_place_load_replaces
      ⟨Variant.svm, none, none, some ⟨3, .defaultOf .svm⟩⟩
      [Sample.sparse ⟨[[2]]⟩] [0] none ⟨⟨[], []⟩, 9⟩).2
      ⟨9, .defaultOf .svm⟩ rfl⟩

/-- Claim C10: calling save with no explicit fname while the configured
save_path is unset raises AttributeError (from None.parent), not the
documented ConfigError, and writes nothing. -/
theorem save_without_path_raises_attributeError (a : Adapter) (w : World)
    (hs : a.savePath = none) :
    a.save none w = (.error .attributeError, w, []) := by
  simp [Adapter.save, hs]

/-- Witness for C10 at a concrete adapter with no paths. -/
theorem save_without_path_raises_attributeError_witness :
    (⟨Variant.logReg, none, none, none⟩ : Adapter).save none ⟨⟨[], []⟩, 0⟩ =
      (.error .attributeError, ⟨⟨[], []⟩, 0⟩, []) :=
  save_without_path_raises_attributeError _ _ rfl

end SklearnClassifiers
